import Mathlib

/-!
VMS (Validation Management System) — verification of spec claims.

Shallow embedding of the workflow / traceability logic of the VMS frontend
(React + TypeScript).  Each definition below is translated from a concrete
place in the source:

* `getLatestExecution`, `stats`, `passRate`        — TestManagementPage (src/unnamed/part_001)
* `approvedFS`, `dsApproveVisible`, `newDSDisabled`— DSPage (src/unnamed/part_001)
* `approvedURS`, `fsApproveVisible`, `newFSDisabled` — FSPage.tsx
* `ursApproveVisible`                              — URSPage.tsx
* `boundaryApproveVisible`, `coverage`, `deviationCell` — SystemBoundaryPage.tsx
* `executeDisabled`                                — TestManagementPage execute button
* `failedExecutions`, `deviationFormLinkValid`     — DeviationPage.tsx
* `getProgressPercent`                             — DashboardPage (src/unnamed/part_002)

JavaScript numeric expressions are modelled over `ℚ`/`ℤ` (the values involved
are small integers and exact ratios, far from any floating-point edge).
`Math.round` is `jsRound` below; `Array.prototype.sort` (stable since ES2019)
is `List.mergeSort`, which is stable with the same comparator semantics.
Free-text / presentation-only fields of the TypeScript interfaces (titles,
descriptions, evidence strings, …) are omitted from the record types: no
claim depends on them.
-/

namespace VMS

/-- Source `Role` from src/frontend/src/types/index.ts. -/
inductive Role where
  | Admin
  | ValidationLead
  | QA
  | Executor
deriving DecidableEq, Repr

/-- Source `TestResult` from src/frontend/src/types/index.ts. -/
inductive TestResult where
  | NotExecuted
  | Pass
  | Fail
  | Blocked
deriving DecidableEq, Repr

/-- Source `URSStatus` from src/frontend/src/types/index.ts. -/
inductive URSStatus where
  | Draft
  | UnderReview
  | Approved
  | Obsolete
deriving DecidableEq, Repr

/-- Source `FSStatus` from src/frontend/src/types/index.ts. -/
inductive FSStatus where
  | Draft
  | UnderReview
  | Approved
deriving DecidableEq, Repr

/-- Source `DSStatus` from src/frontend/src/types/index.ts. -/
inductive DSStatus where
  | Draft
  | UnderReview
  | Approved
deriving DecidableEq, Repr

/-- Source `ProjectStatus` from src/frontend/src/types/index.ts. -/
inductive ProjectStatus where
  | Planning
  | URS
  | FS
  | DS
  | Testing
  | Completed
  | OnHold
deriving DecidableEq, Repr

/-- Source `TraceabilityStatus` from src/frontend/src/types/index.ts. -/
inductive TraceabilityStatus where
  | Complete
  | Partial
  | NotStarted
  | Failed
deriving DecidableEq, Repr

/-- Source `TestCase` (interface TestCase): the fields the claims use. -/
structure TestCase where
  id : String
  fs_id : String
  urs_id : String
deriving DecidableEq, Repr

/-- Source `TestExecution` (interface TestExecution): the fields the claims use.
`execution_date` is the `getTime()` value of the execution timestamp in
milliseconds. -/
structure TestExecution where
  id : String
  test_case_id : String
  cycle : Nat
  execution_date : Int
  result : TestResult
deriving DecidableEq, Repr

/-- Source `Requirement` (interface Requirement): the fields the claims use. -/
structure Requirement where
  id : String
  status : URSStatus
deriving DecidableEq, Repr

/-- Source `FunctionalSpecification` (interface FunctionalSpecification): the fields
the claims use. -/
structure FunctionalSpecification where
  id : String
  urs_id : String
  status : FSStatus
deriving DecidableEq, Repr

/-- Source `TraceabilityRow` (interface TraceabilityRow): the fields the claims use.
Optional TypeScript fields become `Option`. -/
structure TraceabilityRow where
  urs_id : String
  fs_id : Option String
  tc_id : Option String
  exec_result : Option String
  deviation_id : Option String
  deviation_status : Option String
  status : TraceabilityStatus
deriving DecidableEq, Repr

/-- JavaScript `Math.round`: round half toward positive infinity. -/
def jsRound (q : ℚ) : ℤ := ⌊q + 1 / 2⌋

/-- JavaScript truthiness of an optional string (`undefined` and the empty
string are falsy). -/
def jsTruthyStr : Option String → Bool
  | none => false
  | some s => !(s == "")

/-- JavaScript `Array.prototype.indexOf`: index of the first occurrence,
`-1` when absent. -/
def jsIndexOf {α : Type} [BEq α] : List α → α → Int
  | [], _ => -1
  | x :: xs, a =>
    if x == a then 0
    else
      let r := jsIndexOf xs a
      if r = -1 then -1 else r + 1

/-! Section: TestManagementPage (src/unnamed/part_001) -/

/-- Comparator used by `getLatestExecution`:
`(a, b) => new Date(b.execution_date).getTime() - new Date(a.execution_date).getTime()`.
In JS sort semantics `a` is placed before `b` when the comparator is negative
or zero, i.e. when `b.execution_date ≤ a.execution_date` (descending by
timestamp, ties keep list order because the sort is stable). -/
def execLE (a b : TestExecution) : Bool := b.execution_date ≤ a.execution_date

/-- Source `getLatestExecution` (part_001 lines 105–109):
`executions.filter(e => e.test_case_id === tcId).sort(desc-by-date)[0]`.
The stable descending sort is `List.mergeSort` with `execLE`; `[0]` is
`head?` (`undefined` = `none` on an empty filter result). -/
def getLatestExecution (executions : List TestExecution) (tcId : String) :
    Option TestExecution :=
  ((executions.filter (fun e => e.test_case_id == tcId)).mergeSort execLE).head?

/-- Source `stats.passed` (part_001 line 113). -/
def statsPassed (executions : List TestExecution) : Nat :=
  (executions.filter (fun e => e.result == TestResult.Pass)).length

/-- Source `executions.filter(e => e.result !== 'Not Executed').length`
(part_001 line 119). -/
def statsExecuted (executions : List TestExecution) : Nat :=
  (executions.filter (fun e => !(e.result == TestResult.NotExecuted))).length

/-- Source `stats.notExecuted` (part_001 line 116):
`testCases.length - new Set(executions.map(e => e.test_case_id)).size`.
A JS subtraction, so the value may be negative: modelled in `ℤ`. -/
def pendingExecution (testCases : List TestCase) (executions : List TestExecution) : Int :=
  (testCases.length : Int) - ((executions.map (fun e => e.test_case_id)).toFinset.card : Int)

/-- Source `passRate` (part_001 line 119):
`stats.total > 0 ? Math.round(stats.passed / Math.max(executed, 1) * 100) : 0`. -/
def passRate (testCases : List TestCase) (executions : List TestExecution) : Int :=
  if testCases.length > 0 then
    jsRound ((statsPassed executions : ℚ) / (max (statsExecuted executions) 1 : ℕ) * 100)
  else 0

/-- Execute button `disabled` (part_001 line 263):
`user?.role !== 'Executor' && user?.role !== 'Admin'`. -/
def executeDisabled (role : Option Role) : Bool :=
  !(role == some Role.Executor) && !(role == some Role.Admin)

/-! Section: Approve controls (URSPage.tsx 316, FSPage.tsx 280, part_001 654,
SystemBoundaryPage.tsx 158) -/

/-- URSPage approve control visibility:
`selectedURS.status !== 'Approved' && user?.role === 'QA'`. -/
def ursApproveVisible (status : URSStatus) (role : Option Role) : Bool :=
  !(status == URSStatus.Approved) && (role == some Role.QA)

/-- FSPage approve control visibility:
`selectedFS.status !== 'Approved' && user?.role === 'QA'`. -/
def fsApproveVisible (status : FSStatus) (role : Option Role) : Bool :=
  !(status == FSStatus.Approved) && (role == some Role.QA)

/-- DSPage approve control visibility (part_001 line 654):
`selectedDS.status !== 'Approved' && user?.role === 'QA'`. -/
def dsApproveVisible (status : DSStatus) (role : Option Role) : Bool :=
  !(status == DSStatus.Approved) && (role == some Role.QA)

/-- SystemBoundaryPage approve control visibility (line 158); the boundary
status is a plain string in the TypeScript types:
`boundary.status !== 'Approved' && user?.role === 'QA'`. -/
def boundaryApproveVisible (status : String) (role : Option Role) : Bool :=
  !(status == "Approved") && (role == some Role.QA)

/-! Section: Creation gates (FSPage.tsx 112/158, DSPage part_001 499/544) -/

/-- Source `approvedURS = ursList.filter(u => u.status === 'Approved')`
(FSPage.tsx line 112); these are the options of the FS-creation select. -/
def approvedURS (ursList : List Requirement) : List Requirement :=
  ursList.filter (fun u => u.status == URSStatus.Approved)

/-- New FS button `disabled={approvedURS.length === 0}` (FSPage.tsx 158). -/
def newFSDisabled (ursList : List Requirement) : Bool :=
  (approvedURS ursList).length == 0

/-- Source `approvedFS = fsList.filter(f => f.status === 'Approved')`
(DSPage, part_001 line 499); these are the options of the DS-creation select. -/
def approvedFS (fsList : List FunctionalSpecification) : List FunctionalSpecification :=
  fsList.filter (fun f => f.status == FSStatus.Approved)

/-- New DS button `disabled={approvedFS.length === 0}` (part_001 line 544). -/
def newDSDisabled (fsList : List FunctionalSpecification) : Bool :=
  (approvedFS fsList).length == 0

/-! Section: DeviationPage.tsx -/

/-- Source `loadData` (DeviationPage.tsx 45–59) stores
`execs.filter(e => e.result === 'Fail')`; the Log-New-Deviation select offers
exactly these executions. -/
def failedExecutions (executions : List TestExecution) : List TestExecution :=
  executions.filter (fun e => e.result == TestResult.Fail)

/-- The `test_execution_id` field of the Log-New-Deviation form carries
`rules={[{ required: true }]}` (DeviationPage.tsx 237–242), and
`DeviationCreate.test_execution_id` is a non-optional string
(types/index.ts 279–288). -/
def deviationLinkFieldRequired : Bool := true

/-- Form-level validity of the deviation submission with respect to the
`test_execution_id` field: a required field must be present. -/
def deviationFormLinkValid (test_execution_id : Option String) : Bool :=
  !deviationLinkFieldRequired || test_execution_id.isSome

/-! Section: SystemBoundaryPage.tsx traceability matrix -/

/-- Source `stats.total = new Set(matrix.map(r => r.urs_id)).size`
(SystemBoundaryPage.tsx 561). -/
def matrixTotalURS (matrix : List TraceabilityRow) : Nat :=
  ((matrix.map (fun r => r.urs_id)).toFinset.card)

/-- Source `stats.complete = matrix.filter(r => r.status === 'Complete').length`
(SystemBoundaryPage.tsx 562). -/
def matrixCompleteRows (matrix : List TraceabilityRow) : Nat :=
  (matrix.filter (fun r => r.status == TraceabilityStatus.Complete)).length

/-- Source `coverage` (SystemBoundaryPage.tsx 568):
`stats.total > 0 ? Math.round((stats.complete / stats.total) * 100) : 0`. -/
def coverage (matrix : List TraceabilityRow) : Int :=
  if matrixTotalURS matrix > 0 then
    jsRound ((matrixCompleteRows matrix : ℚ) / (matrixTotalURS matrix : ℚ) * 100)
  else 0

/-- Coverage as the spec sentence words it (for refinement comparison with
`coverage`): the numerator counts rows with status Complete deduplicated by
Requirement, i.e. distinct requirements having at least one Complete row. -/
def coverageSpecDedup (matrix : List TraceabilityRow) : Int :=
  if matrixTotalURS matrix > 0 then
    jsRound (((((matrix.filter (fun r => r.status == TraceabilityStatus.Complete)).map
        (fun r => r.urs_id)).toFinset.card : ℚ)) / (matrixTotalURS matrix : ℚ) * 100)
  else 0

/-- Rendered content of the Deviation column of the matrix. -/
inductive DeviationCellView where
  | linked : String → Option String → DeviationCellView
  | expectedMarker
  | blank
deriving DecidableEq, Repr

/-- Deviation column render (SystemBoundaryPage.tsx 701–717):
`id ? <link + status tag> : (row.exec_result === 'Fail' ? <Expected> : null)`.
The condition `id ?` is JS truthiness of the optional string. -/
def deviationCell (row : TraceabilityRow) : DeviationCellView :=
  if jsTruthyStr row.deviation_id then
    DeviationCellView.linked (row.deviation_id.getD "") row.deviation_status
  else if row.exec_result == some "Fail" then DeviationCellView.expectedMarker
  else DeviationCellView.blank

/-! Section: DashboardPage (src/unnamed/part_002) -/

/-- The `stages` array of `getProgressPercent` (part_002 lines 75–79). -/
def stages : List ProjectStatus :=
  [ProjectStatus.Planning, ProjectStatus.URS, ProjectStatus.FS,
   ProjectStatus.DS, ProjectStatus.Testing, ProjectStatus.Completed]

/-- Source `getProgressPercent` (part_002 lines 75–79):
`Math.round((stages.indexOf(status) / (stages.length - 1)) * 100)`. -/
def getProgressPercent (status : ProjectStatus) : Int :=
  jsRound ((jsIndexOf stages status : ℚ) / ((stages.length : ℚ) - 1) * 100)

/-! Section: concrete inputs used by counterexamples and witnesses -/

/-- Two tied-timestamp executions of the same test case; the lower cycle comes
first in the loaded list. -/
def eC2a : TestExecution :=
  { id := "TE-1", test_case_id := "TC-1", cycle := 1, execution_date := 100,
    result := TestResult.Pass }

/-- Second execution, same timestamp as `eC2a` but a higher cycle number. -/
def eC2b : TestExecution :=
  { id := "TE-2", test_case_id := "TC-1", cycle := 2, execution_date := 100,
    result := TestResult.Pass }

/-- Execution list with a timestamp tie, in load order. -/
def exC2 : List TestExecution := [eC2a, eC2b]

/-- Later execution of test case TC-2. -/
def eW2a : TestExecution :=
  { id := "TE-21", test_case_id := "TC-2", cycle := 2, execution_date := 300,
    result := TestResult.Pass }

/-- Earlier execution of test case TC-2. -/
def eW2b : TestExecution :=
  { id := "TE-22", test_case_id := "TC-2", cycle := 1, execution_date := 200,
    result := TestResult.Fail }

/-- Execution list for the C2 witness (distinct timestamps). -/
def exW2 : List TestExecution := [eW2a, eW2b]

/-- A test case for the C3 witness. -/
def tcC3 : TestCase := { id := "TC-1", fs_id := "FS-1", urs_id := "URS-1" }

/-- A passing execution for the C3 witness. -/
def eC3 : TestExecution :=
  { id := "TE-3", test_case_id := "TC-1", cycle := 1, execution_date := 100,
    result := TestResult.Pass }

/-- First Complete row of requirement URS-1. -/
def rowC1a : TraceabilityRow :=
  { urs_id := "URS-1", fs_id := some "FS-1", tc_id := some "TC-1",
    exec_result := some "Pass", deviation_id := none, deviation_status := none,
    status := TraceabilityStatus.Complete }

/-- Second Complete row of the same requirement URS-1 (another test case). -/
def rowC1b : TraceabilityRow :=
  { urs_id := "URS-1", fs_id := some "FS-1", tc_id := some "TC-2",
    exec_result := some "Pass", deviation_id := none, deviation_status := none,
    status := TraceabilityStatus.Complete }

/-- A matrix row with a Fail execution result and no linked deviation. -/
def rowC8 : TraceabilityRow :=
  { urs_id := "URS-1", fs_id := some "FS-1", tc_id := some "TC-1",
    exec_result := some "Fail", deviation_id := none, deviation_status := none,
    status := TraceabilityStatus.Failed }

/-- An execution whose test case is not among the loaded test cases. -/
def eC10 : TestExecution :=
  { id := "TE-10", test_case_id := "TC-10", cycle := 1, execution_date := 100,
    result := TestResult.NotExecuted }

/-! Section: theorems -/

/-- Evaluation helper for `jsRound` (JavaScript `Math.round`): the rounded
value is `z` when `q + 1/2` lies in `[z, z + 1)`. -/
theorem jsRound_eq (q : ℚ) (z : ℤ) (h1 : (z : ℚ) ≤ q + 1 / 2)
    (h2 : q + 1 / 2 < z + 1) : jsRound q = z := by
  rw [jsRound]
  exact Int.floor_eq_iff.mpr ⟨h1, h2⟩

/-- C9: for every status in the ordered stage list [Planning, URS, FS, DS,
Testing, Completed], `getProgressPercent` returns round(100 * index / 5);
the status On Hold is absent from the list, the index lookup yields -1, and
the function returns the negative percentage -20. -/
theorem c9_progress_percent :
    getProgressPercent ProjectStatus.Planning = 0 ∧
    getProgressPercent ProjectStatus.URS = 20 ∧
    getProgressPercent ProjectStatus.FS = 40 ∧
    getProgressPercent ProjectStatus.DS = 60 ∧
    getProgressPercent ProjectStatus.Testing = 80 ∧
    getProgressPercent ProjectStatus.Completed = 100 ∧
    jsIndexOf stages ProjectStatus.OnHold = -1 ∧
    getProgressPercent ProjectStatus.OnHold = -20 := by
  refine ⟨?_, ?_, ?_, ?_, ?_, ?_, by decide, ?_⟩ <;>
  · rw [getProgressPercent]
    simp only [show jsIndexOf stages ProjectStatus.Planning = 0 from by decide,
      show jsIndexOf stages ProjectStatus.URS = 1 from by decide,
      show jsIndexOf stages ProjectStatus.FS = 2 from by decide,
      show jsIndexOf stages ProjectStatus.DS = 3 from by decide,
      show jsIndexOf stages ProjectStatus.Testing = 4 from by decide,
      show jsIndexOf stages ProjectStatus.Completed = 5 from by decide,
      show jsIndexOf stages ProjectStatus.OnHold = -1 from by decide]
    apply jsRound_eq <;> norm_num [stages]

/-- C6: the Execute action that records a TestExecution is enabled (not
disabled) if and only if the current user holds the Executor or the Admin
role. -/
theorem c6_execute_role_gate :
    ∀ r : Role, executeDisabled (some r) = false ↔ (r = Role.Executor ∨ r = Role.Admin) := by
  intro r
  cases r <;> decide

/-- C5: the FS-creation form offers exactly the requirements whose status is
Approved, and FS creation is disabled precisely when no requirement is
Approved; the DS-creation form offers exactly the functional specifications
whose status is Approved, and DS creation is disabled precisely when no FS
is Approved. -/
theorem c5_creation_gates (ursList : List Requirement)
    (fsList : List FunctionalSpecification) (u : Requirement)
    (f : FunctionalSpecification) :
    (u ∈ approvedURS ursList ↔ u ∈ ursList ∧ u.status = URSStatus.Approved) ∧
    (newFSDisabled ursList = true ↔ ∀ v ∈ ursList, v.status ≠ URSStatus.Approved) ∧
    (f ∈ approvedFS fsList ↔ f ∈ fsList ∧ f.status = FSStatus.Approved) ∧
    (newDSDisabled fsList = true ↔ ∀ g ∈ fsList, g.status ≠ FSStatus.Approved) := by
  refine ⟨?_, ?_, ?_, ?_⟩
  · simp [approvedURS, List.mem_filter]
  · simp [newFSDisabled, approvedURS, List.length_eq_zero, List.filter_eq_nil_iff]
  · simp [approvedFS, List.mem_filter]
  · simp [newDSDisabled, approvedFS, List.length_eq_zero, List.filter_eq_nil_iff]

/-- C8: in the Deviation column of the traceability matrix, a row without a
linked deviation shows the Expected marker if and only if the row has
execution result Fail. -/
theorem c8_deviation_expected_marker (row : TraceabilityRow)
    (h : row.deviation_id = none) :
    deviationCell row = DeviationCellView.expectedMarker ↔
      row.exec_result = some "Fail" := by
  by_cases hr : row.exec_result = some "Fail" <;>
    simp [deviationCell, h, jsTruthyStr, hr]

/-- Witness for C8: a concrete row with a Fail result and no deviation shows
the Expected marker. -/
theorem c8_witness :
    rowC8.deviation_id = none ∧
    (deviationCell rowC8 = DeviationCellView.expectedMarker ↔
      rowC8.exec_result = some "Fail") :=
  ⟨rfl, c8_deviation_expected_marker rowC8 rfl⟩

/-- Counterexample for C7: the claim says the TestExecution link of a new
deviation may be omitted; the form marks the field required, so a submission
with the link omitted is not valid. -/
theorem c7_counterexample : ¬ (deviationFormLinkValid none = true) := by
  decide

/-- C7 amended: a new deviation must name a TestExecution (the form field is
required), and the executions offered for linking are exactly those whose
result is Fail. -/
theorem c7_deviation_link (execs : List TestExecution) (e : TestExecution)
    (l : Option String) :
    (e ∈ failedExecutions execs ↔ e ∈ execs ∧ e.result = TestResult.Fail) ∧
    (deviationFormLinkValid l = true ↔ l.isSome = true) := by
  constructor
  · simp [failedExecutions, List.mem_filter]
  · simp [deviationFormLinkValid, deviationLinkFieldRequired]

/-- Counterexample for C4: an Admin viewing a Draft requirement is not offered
the approve control, though the claim says the control is available precisely
for QA and Admin. -/
theorem c4_counterexample :
    ¬ (ursApproveVisible URSStatus.Draft (some Role.Admin) = true ↔
        (Role.Admin = Role.QA ∨ Role.Admin = Role.Admin)) := by
  decide

/-- C4 amended: on every artifact page (Requirement, FS, DS, System Boundary)
the approve control is shown if and only if the artifact is not yet Approved
and the current user role is QA; Admin is not offered the control. -/
theorem c4_approve_role_gate (su : URSStatus) (sf : FSStatus) (sd : DSStatus)
    (sb : String) (r : Option Role) :
    (ursApproveVisible su r = true ↔ su ≠ URSStatus.Approved ∧ r = some Role.QA) ∧
    (fsApproveVisible sf r = true ↔ sf ≠ FSStatus.Approved ∧ r = some Role.QA) ∧
    (dsApproveVisible sd r = true ↔ sd ≠ DSStatus.Approved ∧ r = some Role.QA) ∧
    (boundaryApproveVisible sb r = true ↔ sb ≠ "Approved" ∧ r = some Role.QA) := by
  refine ⟨?_, ?_, ?_, ?_⟩ <;>
    simp [ursApproveVisible, fsApproveVisible, dsApproveVisible,
      boundaryApproveVisible]

/-- Counterexample for C1: two Complete rows of the same single requirement
give a displayed coverage of 200 percent, while the claimed
deduplicated-by-requirement formula gives 100 percent. -/
theorem c1_counterexample :
    coverage [rowC1a, rowC1b] = 200 ∧
    coverageSpecDedup [rowC1a, rowC1b] = 100 ∧
    coverage [rowC1a, rowC1b] ≠ coverageSpecDedup [rowC1a, rowC1b] := by
  have h1 : coverage [rowC1a, rowC1b] = 200 := by
    rw [coverage,
      show matrixTotalURS [rowC1a, rowC1b] = 1 from by decide,
      show matrixCompleteRows [rowC1a, rowC1b] = 2 from by decide,
      if_pos (by decide : (1 : ℕ) > 0)]
    apply jsRound_eq <;> norm_num
  have h2 : coverageSpecDedup [rowC1a, rowC1b] = 100 := by
    rw [coverageSpecDedup,
      show ((([rowC1a, rowC1b].filter
          (fun r => r.status == TraceabilityStatus.Complete)).map
          (fun r => r.urs_id)).toFinset.card) = 1 from by decide,
      show matrixTotalURS [rowC1a, rowC1b] = 1 from by decide,
      if_pos (by decide : (1 : ℕ) > 0)]
    apply jsRound_eq <;> norm_num
  refine ⟨h1, h2, by rw [h1, h2]; decide⟩

/-- C1 amended: the displayed coverage equals
round(100 * count(rows with status Complete) / count(distinct requirements))
when there is at least one requirement, and 0 otherwise; Complete rows are
not deduplicated by requirement, so a requirement with several Complete rows
contributes once per row. -/
theorem c1_coverage (matrix : List TraceabilityRow) :
    coverage matrix =
      if 0 < (matrix.map (fun r => r.urs_id)).dedup.length then
        jsRound (100 *
          ((matrix.countP (fun r => r.status == TraceabilityStatus.Complete) : ℚ)) /
          ((matrix.map (fun r => r.urs_id)).dedup.length : ℚ))
      else 0 := by
  rw [coverage, matrixTotalURS, matrixCompleteRows, List.card_toFinset,
    List.countP_eq_length_filter]
  split_ifs with h
  · congr 1
    ring
  · rfl

/-- C3: when at least one test case is loaded the displayed pass rate equals
round(100 * passed / max(1, executions whose result is not Not Executed)),
and it equals 0 when the test-case list is empty even if executions exist. -/
theorem c3_pass_rate (tcs : List TestCase) (execs : List TestExecution) :
    (tcs ≠ [] →
      passRate tcs execs =
        jsRound (100 * ((execs.countP (fun e => e.result == TestResult.Pass) : ℚ)) /
          (max 1 ((execs.countP (fun e => !(e.result == TestResult.NotExecuted)) : ℚ))))) ∧
    (tcs = [] → passRate tcs execs = 0) := by
  constructor
  · intro h
    have hl : tcs.length > 0 := List.length_pos.mpr h
    rw [passRate, if_pos hl, statsPassed, statsExecuted,
      ← List.countP_eq_length_filter, ← List.countP_eq_length_filter]
    congr 1
    push_cast [Nat.cast_max]
    rw [max_comm]
    ring
  · intro h
    subst h
    simp [passRate]

/-- Witness for C3: one test case and one passing execution give a pass rate
that matches the claimed formula and evaluates to 100. -/
theorem c3_witness :
    ([tcC3] : List TestCase) ≠ [] ∧
    passRate [tcC3] [eC3] =
      jsRound (100 * (([eC3].countP (fun e => e.result == TestResult.Pass) : ℚ)) /
        (max 1 (([eC3].countP (fun e => !(e.result == TestResult.NotExecuted)) : ℚ)))) ∧
    passRate [tcC3] [eC3] = 100 :=
  ⟨by decide, (c3_pass_rate [tcC3] [eC3]).1 (by decide), by
    rw [passRate, if_pos (by decide : ([tcC3] : List TestCase).length > 0),
      show statsPassed [eC3] = 1 from by decide,
      show statsExecuted [eC3] = 1 from by decide]
    apply jsRound_eq <;> norm_num⟩

/-- C10: the Pending Execution statistic equals the number of loaded test
cases minus the number of distinct test-case ids among the loaded executions;
it ignores execution results entirely (so a test case whose only executions
are Not Executed is not counted as pending), and it is negative whenever the
executions reference more distinct test-case ids than there are test cases. -/
theorem c10_pending_execution (tcs : List TestCase) (execs : List TestExecution) :
    (pendingExecution tcs execs =
      (tcs.length : Int) - ((execs.map (fun e => e.test_case_id)).dedup.length : Int)) ∧
    (∀ f : TestResult → TestResult,
      pendingExecution tcs (execs.map (fun e => { e with result := f e.result })) =
        pendingExecution tcs execs) ∧
    (tcs.length < ((execs.map (fun e => e.test_case_id)).toFinset.card) →
      pendingExecution tcs execs < 0) := by
  refine ⟨?_, ?_, ?_⟩
  · simp [pendingExecution, List.card_toFinset]
  · intro f
    rw [pendingExecution, pendingExecution, List.map_map]
    rfl
  · intro h
    rw [pendingExecution]
    omega

/-- Witness for C10: no test cases and one Not Executed execution give a
negative Pending Execution statistic. -/
theorem c10_witness :
    ([] : List TestCase).length <
      ((([eC10].map (fun e => e.test_case_id)).toFinset.card)) ∧
    pendingExecution [] [eC10] < 0 :=
  ⟨by decide, (c10_pending_execution [] [eC10]).2.2 (by decide)⟩

/-- The sort comparator `execLE` is transitive. -/
theorem execLE_trans : ∀ a b c : TestExecution,
    execLE a b → execLE b c → execLE a c := by
  intro a b c h1 h2
  simp only [execLE, decide_eq_true_eq] at *
  omega

/-- The sort comparator `execLE` is total. -/
theorem execLE_total : ∀ a b : TestExecution, execLE a b || execLE b a := by
  intro a b
  simp only [execLE, Bool.or_eq_true, decide_eq_true_eq]
  omega

/-- The head of the stable descending sort is the earliest-listed element
with maximal timestamp: it occurs in the input list and every element listed
before it has a strictly smaller `execution_date`. -/
theorem mergeSort_head_firstMax :
    ∀ (l : List TestExecution) (e : TestExecution) (t : List TestExecution),
      l.mergeSort execLE = e :: t →
      ∃ l₁ l₂, l = l₁ ++ e :: l₂ ∧
        ∀ b ∈ l₁, b.execution_date < e.execution_date := by
  intro l
  induction l with
  | nil =>
    intro e t h
    simp at h
  | cons a l ih =>
    intro e t h
    obtain ⟨m₁, m₂, h1, h2, h3⟩ := List.mergeSort_cons execLE_trans execLE_total a l
    rw [h1] at h
    cases m₁ with
    | nil =>
      simp only [List.nil_append] at h h2
      injection h with h4 h5
      subst h4
      exact ⟨[], l, rfl, by simp⟩
    | cons c m₁ =>
      simp only [List.cons_append] at h h2
      injection h with h4 h5
      subst h4
      obtain ⟨l₁, l₂, hl, hb⟩ := ih c (m₁ ++ m₂) h2
      refine ⟨a :: l₁, l₂, by rw [hl, List.cons_append], ?_⟩
      intro b hb1
      rcases List.mem_cons.mp hb1 with rfl | hmem
      · have ha := h3 c (List.mem_cons_self c m₁)
        simp only [execLE, Bool.not_eq_true', decide_eq_false_iff_not] at ha
        omega
      · exact hb b hmem

/-- C2 amended: the execution selected for display is one of the test case's
executions, it carries the greatest execution timestamp among them, and a
timestamp tie is broken by the earliest position in the loaded execution list
(the sort is stable), not by cycle number. -/
theorem c2_latest_execution (execs : List TestExecution) (tcId : String)
    (e : TestExecution) (h : getLatestExecution execs tcId = some e) :
    e ∈ execs ∧ e.test_case_id = tcId ∧
    (∀ x ∈ execs, x.test_case_id = tcId →
      x.execution_date ≤ e.execution_date) ∧
    ∃ l₁ l₂, execs.filter (fun x => x.test_case_id == tcId) = l₁ ++ e :: l₂ ∧
      ∀ b ∈ l₁, b.execution_date < e.execution_date := by
  rw [getLatestExecution] at h
  cases hm : (execs.filter (fun x => x.test_case_id == tcId)).mergeSort execLE with
  | nil =>
    rw [hm] at h
    simp at h
  | cons x t =>
    rw [hm] at h
    simp only [List.head?] at h
    injection h with hx
    subst hx
    have hmem : x ∈ execs.filter (fun z => z.test_case_id == tcId) :=
      List.mem_mergeSort.mp (by rw [hm]; exact List.mem_cons_self x t)
    have hfil := List.mem_filter.mp hmem
    have sorted :=
      List.sorted_mergeSort execLE_trans execLE_total
        (execs.filter (fun z => z.test_case_id == tcId))
    rw [hm] at sorted
    refine ⟨hfil.1, by simpa using hfil.2, ?_, ?_⟩
    · intro y hy1 hy2
      have hyl : y ∈ execs.filter (fun z => z.test_case_id == tcId) :=
        List.mem_filter.mpr ⟨hy1, by simp [hy2]⟩
      have hym : y ∈ x :: t := by
        rw [← hm]
        exact List.mem_mergeSort.mpr hyl
      rcases List.mem_cons.mp hym with rfl | hmt
      · exact le_refl _
      · have hrel := List.rel_of_pairwise_cons sorted hmt
        simpa [execLE] using hrel
    · exact mergeSort_head_firstMax _ x t hm

/-- When the filtered execution list is already descending by timestamp, the
stable sort leaves it unchanged and the selection is its head. -/
theorem getLatest_of_sorted (execs : List TestExecution) (tcId : String)
    (h : (execs.filter (fun x => x.test_case_id == tcId)).Pairwise
      (fun a b => execLE a b = true)) :
    getLatestExecution execs tcId =
      (execs.filter (fun x => x.test_case_id == tcId)).head? := by
  rw [getLatestExecution, List.mergeSort_of_sorted h]

/-- Counterexample for C2: with two executions of the same test case tied on
timestamp, the loaded-first execution (cycle 1) is selected, not the one with
the higher cycle number, so timestamp ties are not broken by cycle. -/
theorem c2_counterexample :
    getLatestExecution exC2 "TC-1" = some eC2a ∧
    eC2b ∈ exC2 ∧
    eC2b.test_case_id = "TC-1" ∧
    eC2b.execution_date = eC2a.execution_date ∧
    eC2a.cycle < eC2b.cycle ∧
    ¬ (∀ x ∈ exC2, x.test_case_id = "TC-1" →
        x.execution_date = eC2a.execution_date → x.cycle ≤ eC2a.cycle) := by
  have h1 : getLatestExecution exC2 "TC-1" = some eC2a :=
    (getLatest_of_sorted exC2 "TC-1" (by decide)).trans (by decide)
  exact ⟨h1, by decide, by decide, by decide, by decide, by decide⟩

/-- Witness for C2 amended: on a two-execution list with distinct timestamps
the selected execution is the one with the greater timestamp, and no earlier
listed execution carries an equal or larger one. -/
theorem c2_witness :
    eW2a ∈ exW2 ∧ eW2a.test_case_id = "TC-2" ∧
    (∀ x ∈ exW2, x.test_case_id = "TC-2" →
      x.execution_date ≤ eW2a.execution_date) ∧
    ∃ l₁ l₂, exW2.filter (fun x => x.test_case_id == "TC-2") = l₁ ++ eW2a :: l₂ ∧
      ∀ b ∈ l₁, b.execution_date < eW2a.execution_date :=
  c2_latest_execution exW2 "TC-2" eW2a
    ((getLatest_of_sorted exW2 "TC-2" (by decide)).trans (by decide))

end VMS
